import Mathlib

set_option maxHeartbeats 1000000

/-!
Verification development for the sentence difficulty classifier in
src/data_preparation/language_intelligence/spacy_classifier.py.

The external collaborators (spaCy annotation, the wordfreq top-20000 list,
the cefrpy dictionary, the common-names CSV) are modelled as parameters of
a `Classifier` record: a frequency list, a lowercased name list, and a
dictionary function `String -> Option CEFR`.  Tokens carry exactly the
annotation fields that the classifier reads.  Every definition below is a
direct translation of the corresponding Python function; source line
numbers are given in the comments.
-/

namespace Phrasis

/-- The six CEFR levels.  The source represents them as the strings
"A1".."C2"; the code only ever produces these six strings, so an
inductive type is a faithful model. -/
inductive CEFR where
  | A1 | A2 | B1 | B2 | C1 | C2
deriving DecidableEq

/-- Position of a level in the list cefr_order (spacy_classifier.py line 295):
cefr_order.index of the level. -/
def CEFR.idx : CEFR → Nat
  | .A1 => 0
  | .A2 => 1
  | .B1 => 2
  | .B2 => 3
  | .C1 => 4
  | .C2 => 5

/-- The fixed order of levels, as the list at lines 295 and 587. -/
def cefr_order : List CEFR := [.A1, .A2, .B1, .B2, .C1, .C2]

/-- HARDCODED_CEFR_LEVELS (lines 16-27): overrides for contractions and
symbols.  Apostrophes in the keys are written with the escape \x27. -/
def HARDCODED_CEFR_LEVELS : List (String × CEFR) :=
  [("\x27s", .A2), ("\x27ve", .A2), ("n\x27t", .A2), ("\x27m", .A2),
   ("\x27ll", .A2), ("\x27re", .A2), ("\x27d", .A2),
   ("a.m.", .B1), ("p.m.", .B1), ("-", .B1)]

/-- Membership lookup in the hardcoded table (the source tests
`word.lower() in HARDCODED_CEFR_LEVELS` and indexes into the dict). -/
def hardcoded_lookup (w : String) : Option CEFR :=
  (HARDCODED_CEFR_LEVELS.find? (fun p => p.1 == w)).map Prod.snd

/-- ASCII lowercasing of one character, modelling str.lower on the
ASCII range the lookups need. -/
def lower_char (c : Char) : Char :=
  if c.toNat ≥ 65 ∧ c.toNat ≤ 90 then Char.ofNat (c.toNat + 32) else c

/-- Lowercasing of a string, modelling word.lower(). -/
def lower_str (s : String) : String := String.mk (s.data.map lower_char)

/-- One spaCy token, restricted to the annotation fields the classifier
reads: text, lemma_, pos_, shape_, is_stop, ent_type_. -/
structure Token where
  text : String
  lemma_ : String
  pos : String
  shape : String
  is_stop : Bool
  ent_type : String
deriving DecidableEq

/-- The classifier environment: the top-20000 frequency list
(top_n_list), the common-names set (stored lowercased, as the CSV load at
line 203 lowercases every name), and the cefrpy dictionary modelled as a
function from lowercased words to an optional level. -/
structure Classifier where
  top_20k_words : List String
  common_names : List String
  cefr_analyzer : String → Option CEFR

/-- First index of a word in a list (the dict built at line 233 maps each
word of the frequency list to its position; the list has no duplicate
entries, so first-index lookup coincides with the dict). -/
def index_of_word : List String → String → Option Nat
  | [], _ => none
  | w :: ws, x => if w = x then some 0 else (index_of_word ws x).map (fun i => i + 1)

/-- The rank dictionary of line 233: word at index i gets rank i + 1. -/
def word_rank_dict (top : List String) (x : String) : Option Nat :=
  (index_of_word top x).map (fun i => i + 1)

/-- get_word_rank (lines 228-247): lowercased word lookup, then lemma
fallback when the lemma string is nonempty (Python tests `if lemma:`). -/
def get_word_rank (c : Classifier) (word lem : String) : Option Nat :=
  match word_rank_dict c.top_20k_words (lower_str word) with
  | some r => some r
  | none =>
    if lem ≠ "" then word_rank_dict c.top_20k_words (lower_str lem)
    else none

/-- get_min_rank (lines 257-264): the source only collects the result of
get_word_rank into the list, so the minimum is that single rank. -/
def get_min_rank (c : Classifier) (word lem : String) : Option Nat :=
  get_word_rank c word lem

/-- is_common_name (lines 212-223): lowercased membership in the names set. -/
def is_common_name (c : Classifier) (word : String) : Bool :=
  c.common_names.contains (lower_str word)

/-- get_cefr_level (lines 266-274): None for entities, else the dictionary
lookup on the lowercased word (lookup failures inside cefrpy are already
None in the model). -/
def get_cefr_level (c : Classifier) (word : String) (is_entity : Bool) : Option CEFR :=
  if is_entity then none else c.cefr_analyzer (lower_str word)

/-- get_cefr_from_rank (lines 276-292), translated branch by branch. -/
def get_cefr_from_rank : Option Nat → Option CEFR
  | none => none
  | some rank =>
    if rank ≤ 500 then some .A1
    else if rank ≤ 1000 then some .A2
    else if rank ≤ 2000 then some .B1
    else if rank ≤ 3000 then some .B2
    else if rank ≤ 5000 then some .B2
    else if rank ≤ 10000 then some .C1
    else some .C2

/-- get_combined_cefr (lines 294-314).  The source returns
cefr_order[max db_idx rank_idx]; since CEFR.idx is the position in
cefr_order, that element is db_cefr when its index is the larger and
rank_cefr otherwise. -/
def get_combined_cefr (c : Classifier) (word lem : String) (is_entity : Bool)
    (word_rank : Option Nat) : Option CEFR :=
  match hardcoded_lookup (lower_str word) with
  | some lv => some lv
  | none =>
    match get_cefr_level c word is_entity with
    | some db_cefr =>
      match get_cefr_from_rank word_rank with
      | some rank_cefr =>
        some (if db_cefr.idx ≥ rank_cefr.idx then db_cefr else rank_cefr)
      | none => some db_cefr
    | none => get_cefr_from_rank (get_min_rank c word lem)

/-- get_digit_rank (lines 329-340): shape.count of the letter d. -/
def get_digit_rank (shape : String) : Option Nat :=
  let digit_count := shape.data.countP (fun ch => ch = 'd')
  if digit_count = 1 then some 500
  else if digit_count = 2 then some 1000
  else if digit_count > 2 then some 2000
  else none

/-- get_digit_difficulty (lines 316-327). -/
def get_digit_difficulty (shape : String) : Option CEFR :=
  get_cefr_from_rank (get_digit_rank shape)

/-- The fields of one classification() item (lines 493-533) that the
difficulty computation reads downstream: pos, is_stop, is_name,
combined_cefr. -/
structure ClassifiedToken where
  pos : String
  is_stop : Bool
  is_name : Bool
  combined_cefr : Option CEFR
deriving DecidableEq

/-- One iteration of classification() (lines 498-531): derive is_entity,
is_name, word_rank, combined_cefr, and for NUM tokens override the
combined level with the digit difficulty when that is available
(`if digit_difficulty:` is never a level equal to a falsy value, so
truthiness is isSome). -/
def classify_token (c : Classifier) (t : Token) : ClassifiedToken :=
  let is_entity := t.ent_type ≠ ""
  let is_name := is_common_name c t.text
  let word_rank := get_word_rank c t.text t.lemma_
  let combined0 := get_combined_cefr c t.text t.lemma_ is_entity word_rank
  let combined :=
    if t.pos = "NUM" then
      match get_digit_difficulty t.shape with
      | some dd => some dd
      | none => combined0
    else combined0
  ⟨t.pos, t.is_stop, is_name, combined⟩

/-- classification() over the whole token sequence. -/
def classification (c : Classifier) (toks : List Token) : List ClassifiedToken :=
  toks.map (classify_token c)

/-- The word-count exclusion filter of lines 563-565: only PUNCT, SYM and
SPACE are skipped. -/
def excluded_pos (pos : String) : Bool :=
  pos == "PUNCT" || pos == "SYM" || pos == "SPACE"

/-- filtered_tokens of sentence_difficulty step 2 (lines 560-565). -/
def filtered_tokens (c : Classifier) (toks : List Token) : List ClassifiedToken :=
  (classification c toks).filter (fun item => !excluded_pos item.pos)

/-- words_with_stops (line 568). -/
def words_with_stops (c : Classifier) (toks : List Token) : Nat :=
  (filtered_tokens c toks).length

/-- words_without_stops (line 569). -/
def words_without_stops (c : Classifier) (toks : List Token) : Nat :=
  ((filtered_tokens c toks).filter (fun t => !t.is_stop)).length

/-- The level an item is tallied at (lines 579-582): combined_cefr, with
None replaced by B2.  (The code comment at line 580 says C2 but the code
assigns B2.) -/
def tally_level (item : ClassifiedToken) : CEFR :=
  match item.combined_cefr with
  | some lv => lv
  | none => .B2

/-- cefr_counts of step 3 (lines 571-584): over the already-filtered
items, skip names and PROPN tokens, then count by tally level.  The guard
`if level in cefr_counts` always holds because every produced level is one
of the six, which the CEFR type makes intrinsic. -/
def cefr_counts (items : List ClassifiedToken) (lv : CEFR) : Nat :=
  items.countP (fun item => !(item.is_name || item.pos == "PROPN") && tally_level item == lv)

/-- The CEFR tally of the sentence. -/
def sentence_cefr_counts (c : Classifier) (toks : List Token) (lv : CEFR) : Nat :=
  cefr_counts (filtered_tokens c toks) lv

/-- Per-level difficulty configuration record (one entry of the config
dicts at lines 30-178): -1 means unlimited. -/
structure LevelConfig where
  max_words_with_stops : Int
  max_words_without_stops : Int
  level_limits : CEFR → Int

/-- DEFAULT_DIFFICULTY_CONFIG (lines 30-103), reproduced verbatim. -/
def DEFAULT_DIFFICULTY_CONFIG : CEFR → LevelConfig
  | .A1 => ⟨11, 9, fun m => match m with
      | .A1 => -1 | .A2 => 0 | .B1 => 0 | .B2 => 0 | .C1 => 0 | .C2 => 0⟩
  | .A2 => ⟨16, 13, fun m => match m with
      | .A1 => -1 | .A2 => -1 | .B1 => 0 | .B2 => 0 | .C1 => 0 | .C2 => 0⟩
  | .B1 => ⟨20, 15, fun m => match m with
      | .A1 => -1 | .A2 => -1 | .B1 => -1 | .B2 => 0 | .C1 => 0 | .C2 => 0⟩
  | .B2 => ⟨25, 20, fun m => match m with
      | .A1 => -1 | .A2 => -1 | .B1 => -1 | .B2 => -1 | .C1 => 0 | .C2 => 0⟩
  | .C1 => ⟨30, 25, fun m => match m with
      | .A1 => -1 | .A2 => -1 | .B1 => -1 | .B2 => -1 | .C1 => -1 | .C2 => 0⟩
  | .C2 => ⟨-1, -1, fun m => match m with
      | .A1 => -1 | .A2 => -1 | .B1 => -1 | .B2 => -1 | .C1 => -1 | .C2 => -1⟩

/-- APPROX_CEFR_LEVEL_CONFIG (lines 105-178), reproduced verbatim. -/
def APPROX_CEFR_LEVEL_CONFIG : CEFR → LevelConfig
  | .A1 => ⟨12, 10, fun m => match m with
      | .A1 => -1 | .A2 => 1 | .B1 => 0 | .B2 => 0 | .C1 => 0 | .C2 => 0⟩
  | .A2 => ⟨16, 13, fun m => match m with
      | .A1 => -1 | .A2 => -1 | .B1 => 1 | .B2 => 1 | .C1 => 0 | .C2 => 0⟩
  | .B1 => ⟨20, 15, fun m => match m with
      | .A1 => -1 | .A2 => -1 | .B1 => -1 | .B2 => 2 | .C1 => 1 | .C2 => 1⟩
  | .B2 => ⟨25, 20, fun m => match m with
      | .A1 => -1 | .A2 => -1 | .B1 => -1 | .B2 => -1 | .C1 => 1 | .C2 => 1⟩
  | .C1 => ⟨30, 25, fun m => match m with
      | .A1 => -1 | .A2 => -1 | .B1 => -1 | .B2 => -1 | .C1 => -1 | .C2 => 2⟩
  | .C2 => ⟨-1, -1, fun m => match m with
      | .A1 => -1 | .A2 => -1 | .B1 => -1 | .B2 => -1 | .C1 => -1 | .C2 => -1⟩

/-- The per-level constraint check of step 4 (lines 589-614): the word
count checks `continue` on failure (here: return false) and the level
limit loop fails when any limited count is exceeded. -/
def level_ok (cfg : CEFR → LevelConfig) (ws wos : Nat) (counts : CEFR → Nat)
    (lv : CEFR) : Bool :=
  let lc := cfg lv
  if lc.max_words_with_stops ≠ -1 ∧ (ws : Int) > lc.max_words_with_stops then false
  else if lc.max_words_without_stops ≠ -1 ∧ (wos : Int) > lc.max_words_without_stops then false
  else cefr_order.all
    (fun m => !(decide (lc.level_limits m ≠ -1 ∧ (counts m : Int) > lc.level_limits m)))

/-- The level loop plus the C2 fallback (lines 589-617): first level in
order whose constraints hold, else C2. -/
def select_level (cfg : CEFR → LevelConfig) (ws wos : Nat) (counts : CEFR → Nat) : CEFR :=
  match cefr_order.find? (level_ok cfg ws wos counts) with
  | some lv => lv
  | none => .C2

/-- sentence_difficulty (lines 535-617): A1 for an empty token stream
(`if not self.doc`), otherwise classify, filter, count and select. -/
def sentence_difficulty (c : Classifier) (toks : List Token)
    (cfg : CEFR → LevelConfig) : CEFR :=
  if toks.isEmpty then .A1
  else select_level cfg (words_with_stops c toks) (words_without_stops c toks)
    (sentence_cefr_counts c toks)

/-- The thresholds dict of line 405 with its .get default 20001: the dict
has no C2 key, so both C2 and None fall to 20001. -/
def num_rank_thresholds (cefr : Option CEFR) : Nat :=
  match cefr with
  | some .A1 => 500
  | some .A2 => 1000
  | some .B1 => 2000
  | some .B2 => 5000
  | some .C1 => 10000
  | _ => 20001

/-- One iteration of _get_sentence_ranks (lines 362-416): the rank a token
contributes to the max and average rank aggregates, or none when the token
is skipped.  Branch order follows the source: name, entity-or-PROPN,
hardcoded, punctuation, NUM, ordinary word.  (`if digit_rank:` truthiness
is isSome, since the digit ranks 500, 1000, 2000 are never zero.) -/
def token_rank (c : Classifier) (t : Token) : Option Nat :=
  if is_common_name c t.text then some 300
  else if t.ent_type ≠ "" ∨ t.pos = "PROPN" then
    match get_word_rank c t.text t.lemma_ with
    | some actual_rank => some (max actual_rank 20001)
    | none => some 20001
  else if (hardcoded_lookup (lower_str t.text)).isSome then none
  else if excluded_pos t.pos then none
  else if t.pos = "NUM" then
    match get_digit_rank t.shape with
    | some digit_rank => some digit_rank
    | none => some (num_rank_thresholds (get_cefr_from_rank (get_word_rank c t.text t.lemma_)))
  else
    match get_word_rank c t.text t.lemma_ with
    | some rank => some rank
    | none => some 20001

/-- _get_sentence_ranks over the whole token sequence. -/
def get_sentence_ranks (c : Classifier) (toks : List Token) : List Nat :=
  toks.filterMap (token_rank c)

/-- get_max_word_rank (lines 342-349): max of the ranks, 0 when empty. -/
def get_max_word_rank (c : Classifier) (toks : List Token) : Nat :=
  (get_sentence_ranks c toks).foldl max 0

/-- Modelled from the spec: the Level Selector constraint of section 4.4,
written from the specification text (word counts do not exceed the
ceilings when those are not -1, and every tallied level count is within
its limit when that is not -1).  Used to compare the source selector
against the specified first-satisfying-level semantics. -/
def spec_level_ok (cfg : CEFR → LevelConfig) (ws wos : Nat) (counts : CEFR → Nat)
    (lv : CEFR) : Bool :=
  decide ((cfg lv).max_words_with_stops ≠ -1 → (ws : Int) ≤ (cfg lv).max_words_with_stops) &&
  decide ((cfg lv).max_words_without_stops ≠ -1 →
    (wos : Int) ≤ (cfg lv).max_words_without_stops) &&
  cefr_order.all
    (fun m => decide ((cfg lv).level_limits m ≠ -1 → (counts m : Int) ≤ (cfg lv).level_limits m))

/-- Modelled from the spec: the first level in A1..C2 order satisfying
spec_level_ok, with C2 as the last-resort fallback. -/
def spec_first_level (cfg : CEFR → LevelConfig) (ws wos : Nat) (counts : CEFR → Nat) : CEFR :=
  match cefr_order.find? (spec_level_ok cfg ws wos counts) with
  | some lv => lv
  | none => .C2

end Phrasis

namespace Phrasis

/-- A classifier environment with empty lexical resources: no frequency
list, no common names, a dictionary that knows no word. -/
def plain_env : Classifier := ⟨[], [], fun _ => none⟩

/-- A named-entity token whose part of speech is NOUN, not PROPN, and
whose text is not a common name. -/
def entity_noun_token : Token := ⟨"zorble", "zorble", "NOUN", "xxxx", false, "GPE"⟩

/-- A classifier environment whose common-names set holds the single
name anna. -/
def names_env : Classifier := ⟨[], ["anna"], fun _ => none⟩

/-- A common-name token (text Anna, tagged PROPN, marked PERSON entity,
not a stop word). -/
def name_token : Token := ⟨"Anna", "Anna", "PROPN", "Xxxx", false, "PERSON"⟩

/-- A possessive-contraction token: its text is the hardcoded-table key
apostrophe-s, its part of speech is PART (not punctuation), and it is
neither an entity nor a stop word here. -/
def contraction_token : Token := ⟨"\x27s", "\x27s", "PART", "\x27x", false, ""⟩

/-- A classifier environment whose dictionary assigns level C1 to the
hardcoded-table key a.m. and nothing to any other word. -/
def dict_env : Classifier := ⟨[], [], fun w => if w = "a.m." then some CEFR.C1 else none⟩

/-- A classifier environment whose dictionary assigns level A2 to the
word cat and nothing to any other word. -/
def cat_env : Classifier := ⟨[], [], fun w => if w = "cat" then some CEFR.A2 else none⟩

/-- An ordinary content token that is absent from every lexical
resource: not a name, not an entity, no rank, no dictionary level. -/
def unknown_word_token : Token := ⟨"zorblex", "zorblex", "NOUN", "xxxx", false, ""⟩

/-- A classifier environment whose frequency list holds the single word
london, so that word has rank 1. -/
def london_env : Classifier := ⟨["london"], [], fun _ => none⟩

/-- A proper-noun named-entity token with a real frequency rank in
london_env and no common-name status. -/
def london_token : Token := ⟨"London", "London", "PROPN", "Xxxxx", false, "GPE"⟩

/-- A limit of -1 means unlimited: not exceeding a limit, phrased as the
negated failure test of the source, equals the implication phrasing of
the spec. -/
theorem not_exceeds (lim : Int) (n : Nat) :
    (!decide (lim ≠ -1 ∧ (n : Int) > lim)) = decide (lim ≠ -1 → (n : Int) ≤ lim) := by
  rw [← decide_not, decide_eq_decide]
  omega

/-- The per-level constraint check of the source coincides pointwise with
the constraint check written from the words of the spec. -/
theorem level_ok_eq_spec (cfg : CEFR → LevelConfig) (ws wos : Nat) (counts : CEFR → Nat)
    (lv : CEFR) : level_ok cfg ws wos counts lv = spec_level_ok cfg ws wos counts lv := by
  unfold level_ok spec_level_ok
  by_cases h1 : (cfg lv).max_words_with_stops ≠ -1 ∧
      (ws : Int) > (cfg lv).max_words_with_stops
  · rw [if_pos h1]
    have e1 : decide ((cfg lv).max_words_with_stops ≠ -1 →
        (ws : Int) ≤ (cfg lv).max_words_with_stops) = false := by
      simp only [decide_eq_false_iff_not]; omega
    rw [e1]; simp
  · rw [if_neg h1]
    have e1 : decide ((cfg lv).max_words_with_stops ≠ -1 →
        (ws : Int) ≤ (cfg lv).max_words_with_stops) = true := by
      simp only [decide_eq_true_eq]; omega
    by_cases h2 : (cfg lv).max_words_without_stops ≠ -1 ∧
        (wos : Int) > (cfg lv).max_words_without_stops
    · rw [if_pos h2]
      have e2 : decide ((cfg lv).max_words_without_stops ≠ -1 →
          (wos : Int) ≤ (cfg lv).max_words_without_stops) = false := by
        simp only [decide_eq_false_iff_not]; omega
      rw [e1, e2]; simp
    · rw [if_neg h2]
      have e2 : decide ((cfg lv).max_words_without_stops ≠ -1 →
          (wos : Int) ≤ (cfg lv).max_words_without_stops) = true := by
        simp only [decide_eq_true_eq]; omega
      rw [e1, e2]
      simp only [Bool.true_and, cefr_order, List.all_cons, List.all_nil, not_exceeds]

/-- An index returned by the first-index lookup is below the list length. -/
theorem index_of_word_lt {top : List String} {x : String} {i : Nat}
    (h : index_of_word top x = some i) : i < top.length := by
  induction top generalizing i with
  | nil => simp [index_of_word] at h
  | cons w ws ih =>
    rw [index_of_word] at h
    by_cases hw : w = x
    · rw [if_pos hw] at h
      cases h
      simp
    · rw [if_neg hw] at h
      rcases Option.map_eq_some'.mp h with ⟨j, hj, hji⟩
      have := ih hj
      simp only [List.length_cons]
      omega

/-- A rank found in the rank dictionary lies between 1 and the length of
the frequency list. -/
theorem word_rank_dict_bounds {top : List String} {x : String} {r : Nat}
    (h : word_rank_dict top x = some r) : 1 ≤ r ∧ r ≤ top.length := by
  unfold word_rank_dict at h
  rcases Option.map_eq_some'.mp h with ⟨i, hi, hir⟩
  have := index_of_word_lt hi
  omega

/-- A rank found by get_word_rank (word or lemma lookup) lies between 1
and the length of the frequency list. -/
theorem get_word_rank_bounds {c : Classifier} {word lem : String} {r : Nat}
    (h : get_word_rank c word lem = some r) : 1 ≤ r ∧ r ≤ c.top_20k_words.length := by
  unfold get_word_rank at h
  cases hw : word_rank_dict c.top_20k_words (lower_str word) with
  | some r2 =>
    rw [hw] at h
    injection h with hrr
    subst hrr
    exact word_rank_dict_bounds hw
  | none =>
    rw [hw] at h
    by_cases hl : lem ≠ ""
    · rw [if_pos hl] at h
      exact word_rank_dict_bounds h
    · rw [if_neg hl] at h
      cases h

/-- Claim C1: for every annotated sentence and for each preset
configuration (DEFAULT and APPROX), sentence_difficulty returns the first
level in the order A1..C2 whose word-count ceilings and per-level token
limits (each ignored when -1) are all satisfied by the sentence metrics,
and C2 when no level satisfies its constraints.  The right-hand side
spec_first_level is written from the words of the spec. -/
theorem C1_selector_first_satisfying_level (c : Classifier) (toks : List Token)
    (cfg : CEFR → LevelConfig)
    (hcfg : cfg = DEFAULT_DIFFICULTY_CONFIG ∨ cfg = APPROX_CEFR_LEVEL_CONFIG) :
    sentence_difficulty c toks cfg =
      spec_first_level cfg (words_with_stops c toks) (words_without_stops c toks)
        (sentence_cefr_counts c toks) := by
  by_cases hemp : toks.isEmpty = true
  · have htoks : toks = [] := by
      cases toks with
      | nil => rfl
      | cons a l => simp at hemp
    subst htoks
    have hc0 : sentence_cefr_counts c ([] : List Token) = fun _ => 0 := funext fun _ => rfl
    rcases hcfg with h | h <;> subst h
    · calc sentence_difficulty c [] DEFAULT_DIFFICULTY_CONFIG = CEFR.A1 := rfl
        _ = spec_first_level DEFAULT_DIFFICULTY_CONFIG 0 0 (fun _ => 0) := by decide
        _ = spec_first_level DEFAULT_DIFFICULTY_CONFIG (words_with_stops c [])
            (words_without_stops c []) (sentence_cefr_counts c []) := by rw [hc0]; rfl
    · calc sentence_difficulty c [] APPROX_CEFR_LEVEL_CONFIG = CEFR.A1 := rfl
        _ = spec_first_level APPROX_CEFR_LEVEL_CONFIG 0 0 (fun _ => 0) := by decide
        _ = spec_first_level APPROX_CEFR_LEVEL_CONFIG (words_with_stops c [])
            (words_without_stops c []) (sentence_cefr_counts c []) := by rw [hc0]; rfl
  · have hfun : level_ok cfg (words_with_stops c toks) (words_without_stops c toks)
        (sentence_cefr_counts c toks) = spec_level_ok cfg (words_with_stops c toks)
        (words_without_stops c toks) (sentence_cefr_counts c toks) :=
      funext (level_ok_eq_spec cfg _ _ _)
    unfold sentence_difficulty
    rw [if_neg hemp]
    unfold select_level spec_first_level
    rw [hfun]

/-- Claim C1 witness: the theorem applied to a concrete one-token
sentence under the DEFAULT preset. -/
theorem C1_witness :
    sentence_difficulty plain_env [unknown_word_token] DEFAULT_DIFFICULTY_CONFIG =
      spec_first_level DEFAULT_DIFFICULTY_CONFIG
        (words_with_stops plain_env [unknown_word_token])
        (words_without_stops plain_env [unknown_word_token])
        (sentence_cefr_counts plain_env [unknown_word_token]) :=
  C1_selector_first_satisfying_level plain_env [unknown_word_token]
    DEFAULT_DIFFICULTY_CONFIG (Or.inl rfl)

/-- Claim C2: sentence_difficulty always returns one of the six levels
(its result is a member of cefr_order) for every classifier environment,
token stream and configuration, and the empty token stream returns A1
immediately.  Totality (no exception) is intrinsic: the function is a
total Lean definition. -/
theorem C2_total_and_empty_is_A1 (c : Classifier) (toks : List Token)
    (cfg : CEFR → LevelConfig) :
    sentence_difficulty c toks cfg ∈ cefr_order ∧
    sentence_difficulty c [] cfg = CEFR.A1 := by
  refine ⟨?_, rfl⟩
  unfold sentence_difficulty
  by_cases h : toks.isEmpty = true
  · rw [if_pos h]; simp [cefr_order]
  · rw [if_neg h]
    unfold select_level
    rcases hf : cefr_order.find? (level_ok cfg (words_with_stops c toks)
        (words_without_stops c toks) (sentence_cefr_counts c toks)) with _ | lv
    · simp [cefr_order]
    · exact List.mem_of_find?_eq_some hf

/-- Claim C3 counterexample: a named-entity token (ent_type GPE) that is
not a common name and whose part of speech is NOUN, not PROPN, DOES
increment the CEFR tally: the tally only skips common names and PROPN
tokens, not named entities as such. -/
theorem C3_counterexample :
    entity_noun_token.ent_type ≠ "" ∧
    is_common_name plain_env entity_noun_token.text = false ∧
    entity_noun_token.pos ≠ "PROPN" ∧
    sentence_cefr_counts plain_env [entity_noun_token] CEFR.B2 = 1 := by decide

/-- Claim C3 amended: a token that is a common name or whose part of
speech is PROPN is excluded from CEFR tallying - removing it from the
sentence leaves every tally entry unchanged.  Named-entity status alone
does not exclude a token. -/
theorem C3_name_or_propn_excluded (c : Classifier) (t : Token) (pre post : List Token)
    (h : is_common_name c t.text = true ∨ t.pos = "PROPN") (lv : CEFR) :
    sentence_cefr_counts c (pre ++ t :: post) lv = sentence_cefr_counts c (pre ++ post) lv := by
  have hname : (classify_token c t).is_name = is_common_name c t.text := rfl
  have hpos : (classify_token c t).pos = t.pos := rfl
  have hpred : (!((classify_token c t).is_name || (classify_token c t).pos == "PROPN") &&
      (tally_level (classify_token c t) == lv)) = false := by
    rcases h with h | h
    · simp [hname, h]
    · simp [hpos, h]
  simp only [sentence_cefr_counts, filtered_tokens, classification, cefr_counts,
    List.map_append, List.map_cons, List.filter_append, List.countP_append]
  congr 1
  by_cases hp : excluded_pos (classify_token c t).pos
  · simp [List.filter_cons, hp]
  · have hpf : excluded_pos (classify_token c t).pos = false := by
      cases hx : excluded_pos (classify_token c t).pos
      · rfl
      · exact absurd hx hp
    rw [List.filter_cons]
    simp only [hpf, Bool.not_false, if_true]
    rw [List.countP_cons, hpred]
    rfl

/-- Claim C3 witness: the amended theorem applied to a concrete
common-name token. -/
theorem C3_witness :
    sentence_cefr_counts names_env [name_token] CEFR.B2 =
      sentence_cefr_counts names_env ([] : List Token) CEFR.B2 :=
  C3_name_or_propn_excluded names_env name_token [] [] (Or.inl (by decide)) CEFR.B2

end Phrasis

namespace Phrasis

/-- Claim C4 counterexample: a sentence of 12 common-name tokens (names
count toward the word counts, and 12 exceeds the A1 ceiling of 11 words
with stops under the DEFAULT preset) classifies as A2, not A1, refuting
the unconditional classification as A1. -/
theorem C4_counterexample :
    is_common_name names_env name_token.text = true ∧
    sentence_difficulty names_env (List.replicate 12 name_token)
      DEFAULT_DIFFICULTY_CONFIG = CEFR.A2 := by decide

/-- Claim C4 amended: a sentence consisting only of common names and
punctuation has all CEFR tallies zero, and classifies as A1 under the
DEFAULT preset provided its word counts fit the A1 ceilings (at most 11
words with stop words, at most 9 without) - name tokens do count toward
both word totals. -/
theorem C4_names_tally_zero_A1_within_limits (c : Classifier) (toks : List Token)
    (hall : ∀ t ∈ toks, is_common_name c t.text = true ∨ excluded_pos t.pos = true)
    (hws : words_with_stops c toks ≤ 11)
    (hwos : words_without_stops c toks ≤ 9) :
    (∀ lv, sentence_cefr_counts c toks lv = 0) ∧
    sentence_difficulty c toks DEFAULT_DIFFICULTY_CONFIG = CEFR.A1 := by
  have hzero : ∀ lv, sentence_cefr_counts c toks lv = 0 := by
    intro lv
    unfold sentence_cefr_counts cefr_counts
    rw [List.countP_eq_zero]
    intro item hitem
    rcases List.mem_filter.mp hitem with ⟨hmap, hkeep⟩
    rcases List.mem_map.mp hmap with ⟨t, ht, rfl⟩
    rcases hall t ht with h | h
    · simp [show (classify_token c t).is_name = is_common_name c t.text from rfl, h]
    · rw [show (classify_token c t).pos = t.pos from rfl] at hkeep
      simp [h] at hkeep
  refine ⟨hzero, ?_⟩
  unfold sentence_difficulty
  by_cases hemp : toks.isEmpty = true
  · rw [if_pos hemp]
  · rw [if_neg hemp]
    have h1 : ¬((DEFAULT_DIFFICULTY_CONFIG CEFR.A1).max_words_with_stops ≠ -1 ∧
        ((words_with_stops c toks : Int) >
          (DEFAULT_DIFFICULTY_CONFIG CEFR.A1).max_words_with_stops)) := by
      simp only [DEFAULT_DIFFICULTY_CONFIG]
      omega
    have h2 : ¬((DEFAULT_DIFFICULTY_CONFIG CEFR.A1).max_words_without_stops ≠ -1 ∧
        ((words_without_stops c toks : Int) >
          (DEFAULT_DIFFICULTY_CONFIG CEFR.A1).max_words_without_stops)) := by
      simp only [DEFAULT_DIFFICULTY_CONFIG]
      omega
    have hok : level_ok DEFAULT_DIFFICULTY_CONFIG (words_with_stops c toks)
        (words_without_stops c toks) (sentence_cefr_counts c toks) CEFR.A1 = true := by
      unfold level_ok
      rw [if_neg h1, if_neg h2]
      simp only [cefr_order, List.all_cons, List.all_nil, hzero]
      decide
    unfold select_level
    rw [show cefr_order = CEFR.A1 :: [CEFR.A2, CEFR.B1, CEFR.B2, CEFR.C1, CEFR.C2] from rfl,
      List.find?_cons_of_pos _ hok]

/-- Claim C4 witness: the amended theorem applied to a one-name sentence. -/
theorem C4_witness :
    sentence_cefr_counts names_env [name_token] CEFR.B2 = 0 ∧
    sentence_difficulty names_env [name_token] DEFAULT_DIFFICULTY_CONFIG = CEFR.A1 := by
  have h := C4_names_tally_zero_A1_within_limits names_env [name_token]
    (by decide) (by decide) (by decide)
  exact ⟨h.1 CEFR.B2, h.2⟩

/-- Claim C5 counterexample: a hardcoded-table token (text apostrophe-s,
part of speech PART) DOES contribute to both word counts: a one-token
sentence made of it has word counts 1, not 0, because the word-count
filter of sentence_difficulty only excludes PUNCT, SYM and SPACE. -/
theorem C5_counterexample :
    (hardcoded_lookup (lower_str contraction_token.text)).isSome = true ∧
    words_with_stops plain_env [contraction_token] = 1 ∧
    words_without_stops plain_env [contraction_token] = 1 := by decide

/-- Claim C5 amended: a token whose lowercased text is in the hardcoded
contraction/symbol table is excluded from rank aggregation (it contributes
no rank to the sentence rank list feeding maxRank and averageRank),
provided it is not a common name, named entity or PROPN token - those
branches run first in the source; and it DOES contribute one unit to
wordCountWithFunctionWords (and, when not a stop word, to
wordCountWithoutFunctionWords) whenever its part of speech is not
punctuation, symbol or space. -/
theorem C5_hardcoded_no_rank_but_counted (c : Classifier) (t : Token) (pre post : List Token)
    (hhard : (hardcoded_lookup (lower_str t.text)).isSome = true)
    (hname : is_common_name c t.text = false)
    (hent : t.ent_type = "")
    (hpropn : t.pos ≠ "PROPN") :
    token_rank c t = none ∧
    get_sentence_ranks c (pre ++ t :: post) = get_sentence_ranks c (pre ++ post) ∧
    (excluded_pos t.pos = false →
      words_with_stops c (pre ++ t :: post) = words_with_stops c (pre ++ post) + 1 ∧
      (t.is_stop = false →
        words_without_stops c (pre ++ t :: post) = words_without_stops c (pre ++ post) + 1)) := by
  have hrank : token_rank c t = none := by
    unfold token_rank
    rw [if_neg (by simp [hname]), if_neg (by simp [hent, hpropn]), if_pos hhard]
  refine ⟨hrank, ?_, ?_⟩
  · simp [get_sentence_ranks, List.filterMap_append, List.filterMap_cons, hrank]
  · intro hexc
    have hposc : (classify_token c t).pos = t.pos := rfl
    have hstopc : (classify_token c t).is_stop = t.is_stop := rfl
    constructor
    · simp only [words_with_stops, filtered_tokens, classification, List.map_append,
        List.map_cons, List.filter_append, List.length_append, List.filter_cons,
        hposc, hexc, Bool.not_false, if_true, List.length_cons]
      omega
    · intro hstop
      simp only [words_without_stops, filtered_tokens, classification, List.map_append,
        List.map_cons, List.filter_append, List.length_append, List.filter_cons,
        hposc, hexc, Bool.not_false, if_true, hstopc, hstop, List.length_cons]
      omega

/-- Claim C5 witness: the amended theorem applied to the concrete
contraction token. -/
theorem C5_witness :
    token_rank plain_env contraction_token = none ∧
    get_sentence_ranks plain_env [contraction_token] = get_sentence_ranks plain_env [] ∧
    words_with_stops plain_env [contraction_token] = words_with_stops plain_env [] + 1 := by
  have h := C5_hardcoded_no_rank_but_counted plain_env contraction_token [] []
    (by decide) (by decide) (by decide) (by decide)
  exact ⟨h.1, h.2.1, (h.2.2 (by decide)).1⟩

/-- Claim C6 counterexample: for the hardcoded-table word a.m., with a
dictionary level C1 available and a rank-derived level C2 available
(rank 15000), get_combined_cefr returns the hardcoded override B1, whose
index is strictly below both source indices - the hardcoded check runs
before the harder-wins merge. -/
theorem C6_counterexample :
    get_cefr_level dict_env "a.m." false = some CEFR.C1 ∧
    get_cefr_from_rank (some 15000) = some CEFR.C2 ∧
    get_combined_cefr dict_env "a.m." "a.m." false (some 15000) = some CEFR.B1 ∧
    CEFR.B1.idx < CEFR.C1.idx ∧ CEFR.B1.idx < CEFR.C2.idx := by decide

/-- Claim C6 amended: for every word whose lowercased text is NOT in the
hardcoded override table, when both a dictionary level and a rank-derived
level are available, get_combined_cefr returns a level whose index is at
least both source indices. -/
theorem C6_combined_not_easier_unless_hardcoded (c : Classifier) (word lem : String)
    (is_entity : Bool) (rank : Option Nat) (db_cefr rank_cefr : CEFR)
    (hhard : hardcoded_lookup (lower_str word) = none)
    (hdb : get_cefr_level c word is_entity = some db_cefr)
    (hrank : get_cefr_from_rank rank = some rank_cefr) :
    ∃ lv, get_combined_cefr c word lem is_entity rank = some lv ∧
      db_cefr.idx ≤ lv.idx ∧ rank_cefr.idx ≤ lv.idx := by
  unfold get_combined_cefr
  rw [hhard, hdb, hrank]
  by_cases h : db_cefr.idx ≥ rank_cefr.idx
  · refine ⟨db_cefr, ?_, le_refl _, h⟩
    show some (if db_cefr.idx ≥ rank_cefr.idx then db_cefr else rank_cefr) = some db_cefr
    rw [if_pos h]
  · refine ⟨rank_cefr, ?_, by omega, le_refl _⟩
    show some (if db_cefr.idx ≥ rank_cefr.idx then db_cefr else rank_cefr) = some rank_cefr
    rw [if_neg h]

/-- Claim C6 witness: the amended theorem applied to the word cat with
dictionary level A2 and rank 1500 (rank-derived level B1). -/
theorem C6_witness :
    ∃ lv, get_combined_cefr cat_env "cat" "cat" false (some 1500) = some lv ∧
      CEFR.A2.idx ≤ lv.idx ∧ CEFR.B1.idx ≤ lv.idx :=
  C6_combined_not_easier_unless_hardcoded cat_env "cat" "cat" false (some 1500)
    CEFR.A2 CEFR.B1 (by decide) (by decide) (by decide)

/-- Claim C7: a content token that is tallied (part of speech not
punctuation/symbol/space, not a common name, not PROPN) and whose
combined CEFR is None increments the B2 tally by exactly one and leaves
every other tally entry unchanged. -/
theorem C7_unclassifiable_counts_as_B2 (c : Classifier) (t : Token) (pre post : List Token)
    (hexc : excluded_pos t.pos = false)
    (hname : is_common_name c t.text = false)
    (hpropn : t.pos ≠ "PROPN")
    (hcomb : (classify_token c t).combined_cefr = none) :
    sentence_cefr_counts c (pre ++ t :: post) CEFR.B2 =
      sentence_cefr_counts c (pre ++ post) CEFR.B2 + 1 ∧
    ∀ lv, lv ≠ CEFR.B2 →
      sentence_cefr_counts c (pre ++ t :: post) lv = sentence_cefr_counts c (pre ++ post) lv := by
  have hnamec : (classify_token c t).is_name = is_common_name c t.text := rfl
  have hposc : (classify_token c t).pos = t.pos := rfl
  have htally : tally_level (classify_token c t) = CEFR.B2 := by
    unfold tally_level
    rw [hcomb]
  have hpred : ∀ lv, (!((classify_token c t).is_name || (classify_token c t).pos == "PROPN") &&
      (tally_level (classify_token c t) == lv)) = (CEFR.B2 == lv) := by
    intro lv
    rw [hnamec, hposc, hname, htally]
    have hne : (t.pos == "PROPN") = false := by simp [hpropn]
    rw [hne]
    rfl
  constructor
  · simp only [sentence_cefr_counts, filtered_tokens, classification, cefr_counts,
      List.map_append, List.map_cons, List.filter_append, List.countP_append,
      List.filter_cons, hposc, hexc, Bool.not_false, if_true]
    rw [List.countP_cons, hpred CEFR.B2]
    simp only [beq_self_eq_true, if_true]
    omega
  · intro lv hlv
    simp only [sentence_cefr_counts, filtered_tokens, classification, cefr_counts,
      List.map_append, List.map_cons, List.filter_append, List.countP_append,
      List.filter_cons, hposc, hexc, Bool.not_false, if_true]
    rw [List.countP_cons, hpred lv]
    have hb : (CEFR.B2 == lv) = false := by
      cases lv <;> simp_all
    rw [hb]
    simp

/-- Claim C7 witness: the theorem applied to a concrete unknown word in
an empty lexical environment. -/
theorem C7_witness :
    sentence_cefr_counts plain_env [unknown_word_token] CEFR.B2 =
      sentence_cefr_counts plain_env ([] : List Token) CEFR.B2 + 1 :=
  (C7_unclassifiable_counts_as_B2 plain_env unknown_word_token [] []
    (by decide) (by decide) (by decide) (by decide)).1

/-- Claim C8: get_cefr_from_rank implements exactly the asymmetric
bucketing None to None, up to 500 A1, 501 to 1000 A2, 1001 to 2000 B1,
2001 to 3000 B2, 3001 to 5000 B2, 5001 to 10000 C1, above 10000 C2. -/
theorem C8_rank_bucketing : get_cefr_from_rank none = none ∧
    ∀ r : Nat,
      (r ≤ 500 → get_cefr_from_rank (some r) = some CEFR.A1) ∧
      (500 < r → r ≤ 1000 → get_cefr_from_rank (some r) = some CEFR.A2) ∧
      (1000 < r → r ≤ 2000 → get_cefr_from_rank (some r) = some CEFR.B1) ∧
      (2000 < r → r ≤ 3000 → get_cefr_from_rank (some r) = some CEFR.B2) ∧
      (3000 < r → r ≤ 5000 → get_cefr_from_rank (some r) = some CEFR.B2) ∧
      (5000 < r → r ≤ 10000 → get_cefr_from_rank (some r) = some CEFR.C1) ∧
      (10000 < r → get_cefr_from_rank (some r) = some CEFR.C2) := by
  refine ⟨rfl, fun r => ?_⟩
  refine ⟨fun h => ?_, fun h1 h2 => ?_, fun h1 h2 => ?_, fun h1 h2 => ?_,
    fun h1 h2 => ?_, fun h1 h2 => ?_, fun h => ?_⟩ <;>
  · simp only [get_cefr_from_rank]
    split_ifs <;> first | rfl | omega

/-- Claim C8 witness: the bucketing theorem applied at ranks 2500, 4000
(both B2 bands) and 10001. -/
theorem C8_witness :
    get_cefr_from_rank (some 2500) = some CEFR.B2 ∧
    get_cefr_from_rank (some 4000) = some CEFR.B2 ∧
    get_cefr_from_rank (some 10001) = some CEFR.C2 :=
  ⟨(C8_rank_bucketing.2 2500).2.2.2.1 (by decide) (by decide),
   (C8_rank_bucketing.2 4000).2.2.2.2.1 (by decide) (by decide),
   (C8_rank_bucketing.2 10001).2.2.2.2.2.2 (by decide)⟩

/-- Claim C9: under the DEFAULT preset, a sentence whose word counts fit
the B2 ceilings (at most 25 with stops, 20 without) and whose tally has
exactly one B2 token, any number of A1 tokens, and none at A2, B1, C1 or
C2, fails the constraint checks of A1, A2 and B1 (each limits B2 tokens
to 0) and classifies as B2. -/
theorem C9_single_B2_sentence_is_B2 (c : Classifier) (toks : List Token)
    (hws : words_with_stops c toks ≤ 25)
    (hwos : words_without_stops c toks ≤ 20)
    (hA2 : sentence_cefr_counts c toks CEFR.A2 = 0)
    (hB1 : sentence_cefr_counts c toks CEFR.B1 = 0)
    (hB2 : sentence_cefr_counts c toks CEFR.B2 = 1)
    (hC1 : sentence_cefr_counts c toks CEFR.C1 = 0)
    (hC2 : sentence_cefr_counts c toks CEFR.C2 = 0) :
    level_ok DEFAULT_DIFFICULTY_CONFIG (words_with_stops c toks) (words_without_stops c toks)
      (sentence_cefr_counts c toks) CEFR.A1 = false ∧
    level_ok DEFAULT_DIFFICULTY_CONFIG (words_with_stops c toks) (words_without_stops c toks)
      (sentence_cefr_counts c toks) CEFR.A2 = false ∧
    level_ok DEFAULT_DIFFICULTY_CONFIG (words_with_stops c toks) (words_without_stops c toks)
      (sentence_cefr_counts c toks) CEFR.B1 = false ∧
    sentence_difficulty c toks DEFAULT_DIFFICULTY_CONFIG = CEFR.B2 := by
  have hne : toks.isEmpty = false := by
    cases htoks : toks with
    | nil => rw [htoks] at hB2; simp [sentence_cefr_counts, filtered_tokens, classification,
        cefr_counts] at hB2
    | cons a l => rfl
  have hfail : ∀ lv, lv = CEFR.A1 ∨ lv = CEFR.A2 ∨ lv = CEFR.B1 →
      level_ok DEFAULT_DIFFICULTY_CONFIG (words_with_stops c toks) (words_without_stops c toks)
        (sentence_cefr_counts c toks) lv = false := by
    intro lv hlv
    rw [level_ok_eq_spec]
    rcases hlv with h | h | h <;> subst h <;>
    · unfold spec_level_ok
      simp only [cefr_order, List.all_cons, List.all_nil]
      rw [show decide ((DEFAULT_DIFFICULTY_CONFIG _).level_limits CEFR.B2 ≠ -1 →
          ((sentence_cefr_counts c toks CEFR.B2 : Int) ≤
            (DEFAULT_DIFFICULTY_CONFIG _).level_limits CEFR.B2)) = false from by
        simp only [decide_eq_false_iff_not, DEFAULT_DIFFICULTY_CONFIG]
        rw [hB2]
        omega]
      simp
  have hokB2 : level_ok DEFAULT_DIFFICULTY_CONFIG (words_with_stops c toks)
      (words_without_stops c toks) (sentence_cefr_counts c toks) CEFR.B2 = true := by
    rw [level_ok_eq_spec]
    unfold spec_level_ok
    simp only [cefr_order, List.all_cons, List.all_nil, DEFAULT_DIFFICULTY_CONFIG]
    rw [hA2, hB1, hB2, hC1, hC2]
    simp only [Bool.and_eq_true, decide_eq_true_eq]
    refine ⟨by omega, by omega, ?_⟩
    simp
  refine ⟨hfail _ (Or.inl rfl), hfail _ (Or.inr (Or.inl rfl)), hfail _ (Or.inr (Or.inr rfl)), ?_⟩
  unfold sentence_difficulty
  rw [if_neg (by simp [hne])]
  unfold select_level
  rw [show cefr_order = [CEFR.A1, CEFR.A2, CEFR.B1, CEFR.B2, CEFR.C1, CEFR.C2] from rfl]
  rw [List.find?_cons_of_neg _ (by simp [hfail CEFR.A1 (Or.inl rfl)]),
    List.find?_cons_of_neg _ (by simp [hfail CEFR.A2 (Or.inr (Or.inl rfl))]),
    List.find?_cons_of_neg _ (by simp [hfail CEFR.B1 (Or.inr (Or.inr rfl))]),
    List.find?_cons_of_pos _ hokB2]

/-- Claim C9 witness: the theorem applied to a one-token sentence whose
single content word is unclassifiable and therefore tallies as B2. -/
theorem C9_witness :
    sentence_difficulty plain_env [unknown_word_token] DEFAULT_DIFFICULTY_CONFIG = CEFR.B2 :=
  (C9_single_B2_sentence_is_B2 plain_env [unknown_word_token] (by decide) (by decide)
    (by decide) (by decide) (by decide) (by decide) (by decide)).2.2.2

/-- Claim C10: for a token that is a named entity or tagged PROPN and is
not a common name, over a frequency list of at most 20000 words, every
rank get_word_rank can find lies in 1..20000, so the clamp
max rank 20001 always yields 20001, and the token contributes exactly
rank 20001 to the rank aggregates (also when no rank is found). -/
theorem C10_entity_rank_clamped_to_20001 (c : Classifier) (t : Token)
    (htop : c.top_20k_words.length ≤ 20000)
    (hname : is_common_name c t.text = false)
    (hent : t.ent_type ≠ "" ∨ t.pos = "PROPN") :
    (∀ r, get_word_rank c t.text t.lemma_ = some r → 1 ≤ r ∧ r ≤ 20000) ∧
    token_rank c t = some 20001 := by
  have hb : ∀ r, get_word_rank c t.text t.lemma_ = some r → 1 ≤ r ∧ r ≤ 20000 := by
    intro r hr
    have := get_word_rank_bounds hr
    omega
  refine ⟨hb, ?_⟩
  unfold token_rank
  rw [if_neg (by simp [hname]), if_pos hent]
  cases hr : get_word_rank c t.text t.lemma_ with
  | some r =>
    have hle : r ≤ 20001 := by have := hb r hr; omega
    show some (max r 20001) = some 20001
    rw [Nat.max_eq_right hle]
  | none => rfl

/-- Claim C10 witness: the theorem applied to the London token, whose
rank in london_env is 1 and is nonetheless clamped to 20001. -/
theorem C10_witness :
    token_rank london_env london_token = some 20001 :=
  (C10_entity_rank_clamped_to_20001 london_env london_token
    (by decide) (by decide) (Or.inl (by decide))).2

end Phrasis
